import Mathlib

/-!
Verification of the command dispatch layer of the duckling repository,
a shallow embedding of src/src-tauri/src/cmd.rs.

Modelling conventions:
* Rust expressions that can panic (Option::unwrap, Result::expect) are given
  semantics in the `Panics` monad, so a panic is a distinct, observable outcome.
* Each boundary command returns a `CmdOut`: the Rust `Ok`, `Err`, or a panic.
* The backend connections (connector crate, outside src/) are oracles: a
  `Backend` record of operation behaviours, and commands are parameterised by
  the semantics `Connection → Backend` of every constructed connection, so all
  theorems quantify over every possible backend behaviour.
* Backend errors are carried as their rendered message strings (the dispatch
  layer only ever calls to_string / Display on them).
-/

namespace Duckling

/-- Outcome of a Rust computation that can panic. -/
inductive Panics (α : Type) where
  | ok (a : α)
  | panic (msg : String)
  deriving Repr, DecidableEq

/-- Rust Option::unwrap — the value on Some, a panic on None. -/
def unwrapO {α : Type} : Option α → Panics α
  | some a => .ok a
  | none => .panic "called Option::unwrap on a None value"

/-- Map over a non-panicking result. -/
def Panics.map {α β : Type} (f : α → β) : Panics α → Panics β
  | .ok a => .ok (f a)
  | .panic m => .panic m

/-- Sequence two possibly-panicking computations. -/
def Panics.bind {α β : Type} : Panics α → (α → Panics β) → Panics β
  | .ok a, f => f a
  | .panic m, _ => .panic m

/-- Result of one boundary command: Rust Ok, Rust Err, or a panic. -/
inductive CmdOut (α : Type) where
  | ok (a : α)
  | err (e : String)
  | panic (msg : String)
  deriving Repr, DecidableEq

/-- The DialectPayload record of cmd.rs: dialect tag plus optional
connection parameters. -/
structure DialectPayload where
  dialect : String
  path : Option String
  username : Option String
  password : Option String
  host : Option String
  port : Option String
  database : Option String
  cwd : Option String
  deriving Repr, DecidableEq

/-- The constructed backend handles: one constructor per connection struct of
the connector crate, with exactly the fields cmd.rs fills in. -/
inductive Connection where
  | folder (path : String) (cwd : Option String)
  | file (path : String)
  | duckdb (path : String) (cwd : Option String)
  | sqlite (path : String)
  | clickhouse (host port username password : String) (database : Option String)
  | clickhouseTcp (host port username password : String) (database : Option String)
  | mysql (host port username password : String) (database : Option String)
  | postgres (host port username password : String) (database : Option String)
  deriving Repr, DecidableEq

/-- get_dialect of cmd.rs: dispatch on the dialect tag, Some of a constructed
connection for the eight supported tags, None otherwise.  Required fields are
taken with Option::unwrap (panic when absent); username and password use
unwrap_or_default, port uses unwrap_or_default for the two clickhouse tags but
unwrap for mysql and postgres; database and cwd are passed through unchanged.
Struct-literal fields are evaluated in the written order (host before port). -/
def get_dialect (p : DialectPayload) : Panics (Option Connection) :=
  match p.dialect with
  | "folder" => (unwrapO p.path).map (fun pa => some (.folder pa p.cwd))
  | "file" => (unwrapO p.path).map (fun pa => some (.file pa))
  | "duckdb" => (unwrapO p.path).map (fun pa => some (.duckdb pa p.cwd))
  | "sqlite" => (unwrapO p.path).map (fun pa => some (.sqlite pa))
  | "clickhouse" =>
      (unwrapO p.host).map (fun h =>
        some (.clickhouse h (p.port.getD "") (p.username.getD "")
          (p.password.getD "") p.database))
  | "clickhouse_tcp" =>
      (unwrapO p.host).map (fun h =>
        some (.clickhouseTcp h (p.port.getD "") (p.username.getD "")
          (p.password.getD "") p.database))
  | "mysql" =>
      (unwrapO p.host).bind (fun h =>
        (unwrapO p.port).map (fun pt =>
          some (.mysql h pt (p.username.getD "") (p.password.getD "") p.database)))
  | "postgres" =>
      (unwrapO p.host).bind (fun h =>
        (unwrapO p.port).map (fun pt =>
          some (.postgres h pt (p.username.getD "") (p.password.getD "") p.database)))
  | _ => .ok none

/-- Modelled from the spec: raw columnar data (schema plus rows) produced by a
backend; the concrete RawArrowData type lives in the connector crate, which is
not under src/. -/
structure RawData where
  titles : List String
  rows : List (List String)
  deriving Repr, DecidableEq

/-- Modelled from the spec: the recursive schema tree (TreeNode of
connector::utils, not under src/) describing a backend's navigable
hierarchy. -/
inductive TreeNode where
  | node (name : String) (node_type : String) (children : List TreeNode)

/-- Modelled from the spec: one column metadata record (Metadata of
connector::utils, not under src/): qualifying table, column name, type. -/
structure Metadata where
  database : String
  table : String
  column_name : String
  column_type : String
  deriving Repr, DecidableEq

/-- Modelled from the spec: the outward columnar response envelope
(ArrowResponse of crate::api, not under src/): on success it wraps the raw
columnar data unchanged, on backend failure it conveys the error, and it
attaches the elapsed whole milliseconds exactly when supplied. -/
structure ArrowResponse where
  data : Except String RawData
  elapsed_ms : Option Nat

/-- Modelled from the spec: the normaliser ArrowResponse::from_raw_data
(crate::api, not under src/): wraps a raw result or error together with the
optional elapsed time supplied by the call site. -/
def ArrowResponse.from_raw_data (res : Except String RawData)
    (elapsed : Option Nat) : ArrowResponse :=
  ⟨res, elapsed⟩

/-- One backend's behaviour on the Connection contract: an oracle per
operation, each returning the backend's raw result or its rendered error
message.  The implementations live in the connector crate (not under src/);
theorems quantify over every behaviour. -/
structure Backend where
  query : String → Nat → Nat → Except String RawData
  paging_query : String → Option Nat → Option Nat → Except String RawData
  query_table : String → Nat → Nat → String → String → Except String RawData
  table_row_count : String → String → Except String Nat
  export_op : String → String → String → Except String Unit
  get_db : Except String TreeNode
  show_schema : String → Except String RawData
  show_column : Option String → String → Except String RawData
  drop_table : Option String → String → Except String String
  find : String → String → Except String RawData
  all_columns : Except String (List Metadata)

/-- The query command of cmd.rs: resolve the dialect, time the backend query
call (the measured elapsed milliseconds are the parameter dur), and wrap the
raw result with Some elapsed; unsupported dialect yields the fixed error. -/
def query (B : Connection → Backend) (dur : Nat) (sql : String)
    (limit offset : Nat) (dialect : DialectPayload) : CmdOut ArrowResponse :=
  match get_dialect dialect with
  | .panic m => .panic m
  | .ok (some d) =>
      .ok (ArrowResponse.from_raw_data ((B d).query sql limit offset) (some dur))
  | .ok none => .err "not support dialect"

/-- The paging_query command of cmd.rs: like query but the backend receives
Some limit and Some offset. -/
def paging_query (B : Connection → Backend) (dur : Nat) (sql : String)
    (limit offset : Nat) (dialect : DialectPayload) : CmdOut ArrowResponse :=
  match get_dialect dialect with
  | .panic m => .panic m
  | .ok (some d) =>
      .ok (ArrowResponse.from_raw_data
        ((B d).paging_query sql (some limit) (some offset)) (some dur))
  | .ok none => .err "not support dialect"

/-- The query_table command of cmd.rs: tag-bearing unsupported error, empty
strings for an absent where or orderBy, timed, Some elapsed attached. -/
def query_table (B : Connection → Backend) (dur : Nat) (table : String)
    (limit offset : Nat) (orderBy : Option String) (whereArg : Option String)
    (dialect : DialectPayload) : CmdOut ArrowResponse :=
  match get_dialect dialect with
  | .panic m => .panic m
  | .ok (some d) =>
      .ok (ArrowResponse.from_raw_data
        ((B d).query_table table limit offset (whereArg.getD "") (orderBy.getD ""))
        (some dur))
  | .ok none => .err ("not support dialect " ++ dialect.dialect)

/-- The table_row_count command of cmd.rs: the backend count, its error mapped
through to_string (identity on the rendered message). -/
def table_row_count (B : Connection → Backend) (table condition : String)
    (dialect : DialectPayload) : CmdOut Nat :=
  match get_dialect dialect with
  | .panic m => .panic m
  | .ok (some d) =>
      match (B d).table_row_count table condition with
      | .ok n => .ok n
      | .error e => .err e
  | .ok none => .err "not support dialect"

/-- Format inference of the export command: Rust
file.split(dot).next_back().unwrap_or(csv).  splitOnChar mirrors Rust
str::split on one character: it always yields at least one (possibly empty)
segment. -/
def splitOnChar (c : Char) : List Char → List (List Char)
  | [] => [[]]
  | x :: xs =>
      if x = c then [] :: splitOnChar c xs
      else
        match splitOnChar c xs with
        | h :: t => (x :: h) :: t
        | [] => [[x]]

/-- The inferred export format: last dot-separated segment of the file name,
csv when the split yields nothing from the back (unreachable). -/
def infer_format (file : String) : String :=
  ((((splitOnChar '.') file.toList).map List.asString).getLast?).getD "csv"

/-- The export command of cmd.rs: resolve the dialect, infer the format when
none is given, invoke the backend export and discard its result (the Rust
binding is let underscore), then return Ok. -/
def export_cmd (B : Connection → Backend) (sql file : String)
    (format : Option String) (dialect : DialectPayload) : CmdOut Unit :=
  match get_dialect dialect with
  | .panic m => .panic m
  | .ok (some d) =>
      let fmt := match format with
        | some f => f
        | none => infer_format file
      let _ := (B d).export_op sql file fmt
      .ok ()
  | .ok none => .err "not support dialect"

/-- The opened_files command of cmd.rs: read the shared registry slot under
its lock, return a copy of the stored list or the empty list, never writing.
The returned pair is (command result, registry state after the call). -/
def opened_files (state : Option (List String)) :
    CmdOut (List String) × Option (List String) :=
  (.ok (match state with
        | some files => files
        | none => []),
   state)

/-- The get_db command of cmd.rs: backend schema tree, error mapped through
to_string. -/
def get_db (B : Connection → Backend) (dialect : DialectPayload) :
    CmdOut TreeNode :=
  match get_dialect dialect with
  | .panic m => .panic m
  | .ok (some d) =>
      match (B d).get_db with
      | .ok t => .ok t
      | .error e => .err e
  | .ok none => .err "not support dialect"

/-- The show_schema command of cmd.rs: tag-bearing unsupported error, raw
result wrapped with no elapsed time. -/
def show_schema (B : Connection → Backend) (schema : String)
    (dialect : DialectPayload) : CmdOut ArrowResponse :=
  match get_dialect dialect with
  | .panic m => .panic m
  | .ok (some d) => .ok (ArrowResponse.from_raw_data ((B d).show_schema schema) none)
  | .ok none => .err ("not support dialect " ++ dialect.dialect)

/-- The show_column command of cmd.rs: tag-bearing unsupported error, raw
result wrapped with no elapsed time. -/
def show_column (B : Connection → Backend) (schema : Option String)
    (table : String) (dialect : DialectPayload) : CmdOut ArrowResponse :=
  match get_dialect dialect with
  | .panic m => .panic m
  | .ok (some d) =>
      .ok (ArrowResponse.from_raw_data ((B d).show_column schema table) none)
  | .ok none => .err ("not support dialect " ++ dialect.dialect)

/-- The drop_table command of cmd.rs: tag-bearing unsupported error; the
backend result goes through Result::expect with message ERROR (the TODO-marked
line), so a backend failure is a panic carrying the expect message and the
rendered backend error, not a returned Err. -/
def drop_table (B : Connection → Backend) (schema : Option String)
    (table : String) (dialect : DialectPayload) : CmdOut String :=
  match get_dialect dialect with
  | .panic m => .panic m
  | .ok (some d) =>
      match (B d).drop_table schema table with
      | .ok s => .ok s
      | .error e => .panic ("ERROR: " ++ e)
  | .ok none => .err ("not support dialect " ++ dialect.dialect)

/-- The find command of cmd.rs: tag-bearing unsupported error, raw result
wrapped with no elapsed time. -/
def find (B : Connection → Backend) (value pathArg : String)
    (dialect : DialectPayload) : CmdOut ArrowResponse :=
  match get_dialect dialect with
  | .panic m => .panic m
  | .ok (some d) => .ok (ArrowResponse.from_raw_data ((B d).find value pathArg) none)
  | .ok none => .err ("not support dialect " ++ dialect.dialect)

/-- The all_columns command of cmd.rs: a backend error is wrapped by
format!(not support dialect {}, e) — the unsupported-dialect wording prefixed
to the backend's own message. -/
def all_columns (B : Connection → Backend) (dialect : DialectPayload) :
    CmdOut (List Metadata) :=
  match get_dialect dialect with
  | .panic m => .panic m
  | .ok (some d) =>
      match (B d).all_columns with
      | .ok s => .ok s
      | .error e => .err ("not support dialect " ++ e)
  | .ok none => .err ("not support dialect " ++ dialect.dialect)

/-- What the filesystem says about one path: the three Path queries open_path
makes (exists, is_file, parent), modelled as an oracle since OS path semantics
live outside src/. -/
structure PathInfo where
  «exists» : Bool
  is_file : Bool
  parent : Option String
  deriving Repr, DecidableEq

/-- An OS-level action issued by open_path: the open::that call on a target
path. -/
inductive OsAction where
  | openThat (target : String)
  deriving Repr, DecidableEq

/-- Observable outcome of open_path: the returned result, the OS actions
issued, and the warning log entries. -/
structure OpenPathOut where
  result : CmdOut Unit
  actions : List OsAction
  warns : List String
  deriving Repr, DecidableEq

/-- The open_path command of cmd.rs as compiled for a non-Windows target (the
cfg target_os windows block is excluded there): error out before any OS action
when the path does not exist; for a file take its parent directory (panicking
through expect when the parent is absent), otherwise the path itself; then
open::that the target, logging but not reporting an OS failure, and return
Ok.  fs is the filesystem oracle and osOpen the outcome of open::that per
target. -/
def open_path (fs : String → PathInfo) (osOpen : String → Except String Unit)
    (path : String) : OpenPathOut :=
  let p := fs path
  if !p.«exists» then
    ⟨.err ("the path does not exist: " ++ path), [], []⟩
  else
    match (if p.is_file then
             match p.parent with
             | some par => Panics.ok par
             | none => Panics.panic "Failed to get parent directory"
           else Panics.ok path) with
    | .panic m => ⟨.panic m, [], []⟩
    | .ok t =>
        match osOpen t with
        | .ok _ => ⟨.ok (), [.openThat t], []⟩
        | .error e =>
            ⟨.ok (), [.openThat t],
             ["An error occurred when opening " ++ path ++ ": " ++ e]⟩

/-- The eight dialect tags get_dialect recognises. -/
def supportedTags : List String :=
  ["folder", "file", "duckdb", "sqlite", "clickhouse", "clickhouse_tcp",
   "mysql", "postgres"]

/-- Spec-side predicate for the amended construction claim: the dialect tag is
supported and one of the fields the implementation actually unwraps is absent
(path for the four file-backed tags; host for the four networked tags; port
additionally for mysql and postgres only). -/
def requiredAbsent (p : DialectPayload) : Bool :=
  match p.dialect with
  | "folder" | "file" | "duckdb" | "sqlite" => p.path.isNone
  | "clickhouse" | "clickhouse_tcp" => p.host.isNone
  | "mysql" | "postgres" => p.host.isNone || p.port.isNone
  | _ => false

/-- A backend on which every operation fails with the message boom. -/
def errBackend : Backend where
  query := fun _ _ _ => .error "boom"
  paging_query := fun _ _ _ => .error "boom"
  query_table := fun _ _ _ _ _ => .error "boom"
  table_row_count := fun _ _ => .error "boom"
  export_op := fun _ _ _ => .error "boom"
  get_db := .error "boom"
  show_schema := fun _ => .error "boom"
  show_column := fun _ _ => .error "boom"
  drop_table := fun _ _ => .error "boom"
  find := fun _ _ => .error "boom"
  all_columns := .error "boom"

/-- The semantics assigning every connection the same behaviour b. -/
def constBackend (b : Backend) : Connection → Backend := fun _ => b

/-- A well-formed sqlite payload used as a concrete supported dialect. -/
def sqlitePayload : DialectPayload :=
  ⟨"sqlite", some "a.db", none, none, none, none, none, none⟩

/-- A clickhouse payload with its host present but its port absent. -/
def clickhousePortless : DialectPayload :=
  ⟨"clickhouse", none, none, none, some "localhost", none, none, none⟩

/-- A payload whose dialect tag is outside the supported set. -/
def oraclePayload : DialectPayload :=
  ⟨"oracle", some "a.db", none, none, some "h", some "1521", none, none⟩

/-- A filesystem with exactly one entry, the file /dir/f.csv whose parent is
/dir. -/
def fsOne : String → PathInfo := fun s =>
  if s = "/dir/f.csv" then ⟨true, true, some "/dir"⟩ else ⟨false, false, none⟩

/-- An OS open oracle that always succeeds. -/
def osOk : String → Except String Unit := fun _ => .ok ()

/-- An OS open oracle that always fails with the message denied. -/
def osFail : String → Except String Unit := fun _ => .error "denied"

lemma get_dialect_unsupported (p : DialectPayload) (h : p.dialect ∉ supportedTags) :
    get_dialect p = .ok none := by
  unfold get_dialect
  split <;> simp_all [supportedTags]

lemma get_dialect_panic_iff (p : DialectPayload) :
    (∃ m, get_dialect p = .panic m) ↔ requiredAbsent p = true := by
  obtain ⟨d, pa, u, pw, ho, po, db, cw⟩ := p
  by_cases h1 : d = "folder"
  · subst h1; cases pa <;> simp [get_dialect, requiredAbsent, unwrapO, Panics.map]
  by_cases h2 : d = "file"
  · subst h2; cases pa <;> simp [get_dialect, requiredAbsent, unwrapO, Panics.map]
  by_cases h3 : d = "duckdb"
  · subst h3; cases pa <;> simp [get_dialect, requiredAbsent, unwrapO, Panics.map]
  by_cases h4 : d = "sqlite"
  · subst h4; cases pa <;> simp [get_dialect, requiredAbsent, unwrapO, Panics.map]
  by_cases h5 : d = "clickhouse"
  · subst h5; cases ho <;> simp [get_dialect, requiredAbsent, unwrapO, Panics.map]
  by_cases h6 : d = "clickhouse_tcp"
  · subst h6; cases ho <;> simp [get_dialect, requiredAbsent, unwrapO, Panics.map]
  by_cases h7 : d = "mysql"
  · subst h7
    cases ho <;> cases po <;>
      simp [get_dialect, requiredAbsent, unwrapO, Panics.map, Panics.bind]
  by_cases h8 : d = "postgres"
  · subst h8
    cases ho <;> cases po <;>
      simp [get_dialect, requiredAbsent, unwrapO, Panics.map, Panics.bind]
  simp [get_dialect, requiredAbsent, h1, h2, h3, h4, h5, h6, h7, h8]

/-- Claim C1: refuted on the code and documented as a code bug.  At a
destination file name without any dot, the inferred export format is the whole
file name, not the comma-separated default: the unwrap_or csv fallback of
cmd.rs line 196 is unreachable because str::split always yields at least one
segment.  With an extension present the inference does return the substring
after the last dot. -/
theorem C1_export_format_inference :
    infer_format "out" = "out" ∧ infer_format "out" ≠ "csv" ∧
    infer_format "out.json" = "json" := by decide

/-- Claim C2: refuted.  A backend whose export operation fails (message boom)
still makes the export command return Ok: the backend export result is bound
to underscore and discarded at cmd.rs line 198. -/
theorem C2_export_error_swallowed :
    errBackend.export_op "select 1" "out.csv" "csv" = .error "boom" ∧
    export_cmd (constBackend errBackend) "select 1" "out.csv" none sqlitePayload
      = .ok () :=
  ⟨rfl, rfl⟩

/-- Claim C2 amended: for every supported dialect, export invokes the backend
export, discards its outcome, and returns Ok unconditionally; a backend export
failure is never reported to the caller. -/
theorem C2_export_returns_ok (B : Connection → Backend) (sql file : String)
    (fmt : Option String) (p : DialectPayload) (c : Connection)
    (h : get_dialect p = .ok (some c)) :
    export_cmd B sql file fmt p = .ok () := by
  simp [export_cmd, h]

theorem C2_export_returns_ok_witness :
    export_cmd (constBackend errBackend) "select 2" "out.parquet" none sqlitePayload
      = .ok () :=
  C2_export_returns_ok (constBackend errBackend) "select 2" "out.parquet" none
    sqlitePayload (.sqlite "a.db") (by decide)

/-- Claim C3: refuted on the code and documented as a code bug.
table_row_count does surface the backend's own message verbatim, but
all_columns wraps the backend error boom into the unsupported-dialect wording,
returning not support dialect boom (cmd.rs line 289) instead of boom. -/
theorem C3_all_columns_error_wrapped :
    errBackend.all_columns = .error "boom" ∧
    all_columns (constBackend errBackend) sqlitePayload
      = .err "not support dialect boom" ∧
    table_row_count (constBackend errBackend) "t" "" sqlitePayload = .err "boom" :=
  ⟨rfl, rfl, rfl⟩

/-- Claim C4: refuted on the code and documented as a code bug.  When the
backend drop fails (message boom), drop_table panics through Result::expect
with the TODO-marked message ERROR instead of returning the backend error to
the caller as an Err. -/
theorem C4_drop_table_panics :
    errBackend.drop_table none "t" = .error "boom" ∧
    drop_table (constBackend errBackend) none "t" sqlitePayload
      = .panic "ERROR: boom" :=
  ⟨rfl, rfl⟩

/-- Claim C5: refuted.  For the clickhouse tag with host present but port
absent, backend construction does not fail: it succeeds with the port
defaulted to the empty string, because cmd.rs line 78 uses unwrap_or_default
rather than unwrap on the port. -/
theorem C5_port_not_required :
    clickhousePortless.port = none ∧
    get_dialect clickhousePortless
      = .ok (some (.clickhouse "localhost" "" "" "" none)) := by decide

/-- Claim C5 amended: construction panics exactly when a field the code
unwraps is absent — path for folder, file, duckdb, sqlite; host for the four
networked tags; port additionally for mysql and postgres only — while for
clickhouse and clickhouse_tcp an absent port, like an absent username or
password, defaults to the empty string and the database field is passed
through unset, never guessed. -/
theorem C5_construction (p : DialectPayload) :
    ((∃ m, get_dialect p = .panic m) ↔ requiredAbsent p = true) ∧
    (∀ h, p.dialect = "clickhouse" → p.host = some h →
      get_dialect p = .ok (some (.clickhouse h (p.port.getD "")
        (p.username.getD "") (p.password.getD "") p.database))) ∧
    (∀ h, p.dialect = "clickhouse_tcp" → p.host = some h →
      get_dialect p = .ok (some (.clickhouseTcp h (p.port.getD "")
        (p.username.getD "") (p.password.getD "") p.database))) := by
  obtain ⟨d, pa, u, pw, ho, po, db, cw⟩ := p
  refine ⟨get_dialect_panic_iff _, ?_, ?_⟩ <;>
  · intro h hd hh
    dsimp only at hd hh ⊢
    subst hd
    subst hh
    simp [get_dialect, unwrapO, Panics.map]

theorem C5_construction_witness :
    get_dialect ⟨"clickhouse_tcp", none, none, none, some "db.host", none, none, none⟩
      = .ok (some (.clickhouseTcp "db.host" "" "" "" none)) :=
  (C5_construction
      ⟨"clickhouse_tcp", none, none, none, some "db.host", none, none, none⟩).2.2
    "db.host" rfl rfl

/-- Claim C6: confirmed.  For every dialect tag outside the supported set, the
factory returns None (no backend is constructed: the result below holds for
every backend semantics B), and all eleven dialect-taking boundary commands
return the unsupported-dialect error, in its bare or tag-bearing form
depending on the call site. -/
theorem C6_unsupported_dialect (p : DialectPayload) (h : p.dialect ∉ supportedTags)
    (B : Connection → Backend) (dur limit offset : Nat)
    (sql table cond value pathArg schemaArg file : String)
    (fmt orderB whereC schemaOpt : Option String) :
    get_dialect p = .ok none ∧
    query B dur sql limit offset p = .err "not support dialect" ∧
    paging_query B dur sql limit offset p = .err "not support dialect" ∧
    query_table B dur table limit offset orderB whereC p
      = .err ("not support dialect " ++ p.dialect) ∧
    table_row_count B table cond p = .err "not support dialect" ∧
    export_cmd B sql file fmt p = .err "not support dialect" ∧
    get_db B p = .err "not support dialect" ∧
    show_schema B schemaArg p = .err ("not support dialect " ++ p.dialect) ∧
    show_column B schemaOpt table p = .err ("not support dialect " ++ p.dialect) ∧
    drop_table B schemaOpt table p = .err ("not support dialect " ++ p.dialect) ∧
    find B value pathArg p = .err ("not support dialect " ++ p.dialect) ∧
    all_columns B p = .err ("not support dialect " ++ p.dialect) := by
  have h0 := get_dialect_unsupported p h
  refine ⟨h0, ?_, ?_, ?_, ?_, ?_, ?_, ?_, ?_, ?_, ?_, ?_⟩ <;>
    simp [query, paging_query, query_table, table_row_count, export_cmd, get_db,
      show_schema, show_column, drop_table, find, all_columns, h0]

theorem C6_unsupported_dialect_witness :
    oraclePayload.dialect ∉ supportedTags ∧ get_dialect oraclePayload = .ok none :=
  ⟨by decide,
   (C6_unsupported_dialect oraclePayload (by decide) (constBackend errBackend)
      0 0 0 "s" "t" "c" "v" "p" "sc" "f" none none none none).1⟩

/-- Claim C7: confirmed.  On a supported dialect every successful invocation
attaches Some of the measured elapsed milliseconds exactly for query,
paging_query and query_table, and attaches none for show_schema, show_column
and find; drop_table and all_columns return a bare string or metadata list
whose type carries no elapsed field at all. -/
theorem C7_elapsed_policy (B : Connection → Backend) (p : DialectPayload)
    (c : Connection) (hc : get_dialect p = .ok (some c)) (dur limit offset : Nat)
    (sql table schemaArg value pathArg : String)
    (orderB whereC schemaOpt : Option String) :
    query B dur sql limit offset p
      = .ok ⟨(B c).query sql limit offset, some dur⟩ ∧
    paging_query B dur sql limit offset p
      = .ok ⟨(B c).paging_query sql (some limit) (some offset), some dur⟩ ∧
    query_table B dur table limit offset orderB whereC p
      = .ok ⟨(B c).query_table table limit offset (whereC.getD "")
          (orderB.getD ""), some dur⟩ ∧
    show_schema B schemaArg p = .ok ⟨(B c).show_schema schemaArg, none⟩ ∧
    show_column B schemaOpt table p = .ok ⟨(B c).show_column schemaOpt table, none⟩ ∧
    find B value pathArg p = .ok ⟨(B c).find value pathArg, none⟩ := by
  refine ⟨?_, ?_, ?_, ?_, ?_, ?_⟩ <;>
    simp [query, paging_query, query_table, show_schema, show_column, find,
      ArrowResponse.from_raw_data, hc]

theorem C7_elapsed_policy_witness :
    query (constBackend errBackend) 7 "select 1" 10 0 sqlitePayload
      = .ok ⟨errBackend.query "select 1" 10 0, some 7⟩ ∧
    show_schema (constBackend errBackend) "main" sqlitePayload
      = .ok ⟨errBackend.show_schema "main", none⟩ :=
  ⟨(C7_elapsed_policy (constBackend errBackend) sqlitePayload (.sqlite "a.db")
      (by decide) 7 10 0 "select 1" "t" "main" "v" "p" none none none).1,
   (C7_elapsed_policy (constBackend errBackend) sqlitePayload (.sqlite "a.db")
      (by decide) 7 10 0 "select 1" "t" "main" "v" "p" none none none).2.2.2.1⟩

/-- Claim C8: confirmed.  opened_files returns the empty list when the
registry slot is unset and otherwise exactly the stored list in order, and the
registry state after the call equals the state before it. -/
theorem C8_opened_files_copy (s : Option (List String)) :
    (opened_files s).1 = .ok (s.getD []) ∧ (opened_files s).2 = s := by
  cases s <;> simp [opened_files]

/-- Claim C9: confirmed (on the non-Windows compilation of open_path).  For a
nonexistent path, open_path returns the path-not-found error having issued no
OS action; for an existing file whose parent directory the filesystem reports,
the single OS action issued targets that parent directory, not the file
itself. -/
theorem C9_open_path_behaviour (fs : String → PathInfo)
    (osOpen : String → Except String Unit) (path par : String) :
    ((fs path).«exists» = false →
      open_path fs osOpen path
        = ⟨.err ("the path does not exist: " ++ path), [], []⟩) ∧
    ((fs path).«exists» = true → (fs path).is_file = true →
      (fs path).parent = some par →
      (open_path fs osOpen path).actions = [.openThat par]) := by
  constructor
  · intro h
    simp [open_path, h]
  · intro h1 h2 h3
    cases hos : osOpen par <;> simp [open_path, h1, h2, h3, hos]

theorem C9_open_path_behaviour_witness :
    open_path fsOne osOk "/none.csv"
      = ⟨.err "the path does not exist: /none.csv", [], []⟩ ∧
    (open_path fsOne osOk "/dir/f.csv").actions = [.openThat "/dir"] :=
  ⟨(C9_open_path_behaviour fsOne osOk "/none.csv" "x").1 (by decide),
   (C9_open_path_behaviour fsOne osOk "/dir/f.csv" "/dir").2 (by decide)
     (by decide) (by decide)⟩

/-- Claim C10: confirmed (on the non-Windows compilation of open_path).  For
every existing path (with a parent available when it is a file), open_path
returns Ok whatever the OS open outcome is; when the OS open fails, the
failure shows up only as a warning log entry, never in the returned result. -/
theorem C10_open_path_swallows_os_error (fs : String → PathInfo)
    (osOpen : String → Except String Unit) (path : String)
    (hex : (fs path).«exists» = true)
    (hp : (fs path).is_file = true → (fs path).parent ≠ none) :
    (open_path fs osOpen path).result = .ok () ∧
    (∀ e, (∀ t, osOpen t = .error e) →
      (open_path fs osOpen path).warns
        = ["An error occurred when opening " ++ path ++ ": " ++ e]) := by
  constructor
  · by_cases hf : (fs path).is_file = true
    · obtain ⟨par, hpar⟩ := Option.ne_none_iff_exists'.mp (hp hf)
      cases hos : osOpen par <;> simp [open_path, hex, hf, hpar, hos]
    · simp only [Bool.not_eq_true] at hf
      cases hos : osOpen path <;> simp [open_path, hex, hf, hos]
  · intro e he
    by_cases hf : (fs path).is_file = true
    · obtain ⟨par, hpar⟩ := Option.ne_none_iff_exists'.mp (hp hf)
      simp [open_path, hex, hf, hpar, he par]
    · simp only [Bool.not_eq_true] at hf
      simp [open_path, hex, hf, he path]

theorem C10_open_path_swallows_os_error_witness :
    (open_path fsOne osFail "/dir/f.csv").result = .ok () ∧
    (open_path fsOne osFail "/dir/f.csv").warns
      = ["An error occurred when opening /dir/f.csv: denied"] :=
  ⟨(C10_open_path_swallows_os_error fsOne osFail "/dir/f.csv" (by decide)
      (by decide)).1,
   (C10_open_path_swallows_os_error fsOne osFail "/dir/f.csv" (by decide)
      (by decide)).2 "denied" (fun _ => rfl)⟩

end Duckling
